import Mathlib

/-!
Verification of the stick-figure generator's core
(`src/stick_figure_generator.py`): the skeleton solver `compute_skeleton`
with its helper `polar_vector`, and a trace model of
`StickFigureApp.generate_images` / `StickFigureApp.start_generation`
(directory creation, per-frame draw commands, file saves, progress queue).
Real-valued coordinates are embedded as `ℝ`; Python dicts with a fixed key
set become structures, and the dict-typed interface of `compute_skeleton`
is additionally embedded at the association-list level with explicit state
passing to reason about (non-)mutation of the inputs.
-/

namespace StickFigure

/-- A 2D point `(x, y)`; Python tuples of floats. -/
abbrev Point := ℝ × ℝ

/-- `polar_vector(length, angle_rad)` from the source: a vector of given
length and polar angle measured from the vertical axis,
`(length * sin a, length * cos a)`. -/
noncomputable def polar_vector (length angle_rad : ℝ) : Point :=
  (length * Real.sin angle_rad, length * Real.cos angle_rad)

/-- The 8 segment lengths (the `lengths` dict of the source, fixed key set). -/
structure LengthConfig where
  torso : ℝ
  upper_arm : ℝ
  lower_arm : ℝ
  upper_leg : ℝ
  lower_leg : ℝ
  head_radius : ℝ
  shoulder_width : ℝ
  hip_offset : ℝ

/-- The 8 joint angles in radians (the `angles` dict of the source). -/
structure AngleSet where
  left_upper_arm : ℝ
  left_lower_arm : ℝ
  right_upper_arm : ℝ
  right_lower_arm : ℝ
  left_upper_leg : ℝ
  left_lower_leg : ℝ
  right_upper_leg : ℝ
  right_lower_leg : ℝ

/-- The 15 joints returned by `compute_skeleton` (the `joints` dict). -/
structure JointMap where
  hip_center : Point
  left_hip : Point
  right_hip : Point
  neck : Point
  head_center : Point
  left_shoulder : Point
  right_shoulder : Point
  left_elbow : Point
  right_elbow : Point
  left_wrist : Point
  right_wrist : Point
  left_knee : Point
  right_knee : Point
  left_ankle : Point
  right_ankle : Point

/-- `compute_skeleton(hip_x, hip_y, lengths, angles)`, transcribed line by
line from the source (lines 41-123). -/
noncomputable def compute_skeleton (hip_x hip_y : ℝ) (lengths : LengthConfig)
    (angles : AngleSet) : JointMap :=
  let hip_center : Point := (hip_x, hip_y)
  let left_hip : Point := (hip_x - lengths.hip_offset, hip_y)
  let right_hip : Point := (hip_x + lengths.hip_offset, hip_y)
  let neck_y : ℝ := hip_y - lengths.torso
  let neck_center : Point := (hip_x, neck_y)
  let shoulder_width : ℝ := lengths.shoulder_width
  let shoulder_y : ℝ := neck_y
  let left_shoulder : Point := (hip_x - shoulder_width, shoulder_y)
  let right_shoulder : Point := (hip_x + shoulder_width, shoulder_y)
  -- Upper arms
  let lu := polar_vector lengths.upper_arm angles.left_upper_arm
  let left_elbow : Point := (left_shoulder.1 + lu.1, left_shoulder.2 + lu.2)
  let ru := polar_vector lengths.upper_arm angles.right_upper_arm
  let right_elbow : Point := (right_shoulder.1 + ru.1, right_shoulder.2 + ru.2)
  -- Lower arms
  let left_lower_abs_angle : ℝ := angles.left_upper_arm + angles.left_lower_arm
  let lwa := polar_vector lengths.lower_arm left_lower_abs_angle
  let left_wrist : Point := (left_elbow.1 + lwa.1, left_elbow.2 + lwa.2)
  let right_lower_abs_angle : ℝ := angles.right_upper_arm + angles.right_lower_arm
  let rla := polar_vector lengths.lower_arm right_lower_abs_angle
  let right_wrist : Point := (right_elbow.1 + rla.1, right_elbow.2 + rla.2)
  -- Upper legs
  let lk := polar_vector lengths.upper_leg angles.left_upper_leg
  let left_knee : Point := (left_hip.1 + lk.1, left_hip.2 + lk.2)
  let rk := polar_vector lengths.upper_leg angles.right_upper_leg
  let right_knee : Point := (right_hip.1 + rk.1, right_hip.2 + rk.2)
  -- Lower legs
  let left_lower_leg_abs_angle : ℝ := angles.left_upper_leg + angles.left_lower_leg
  let ll := polar_vector lengths.lower_leg left_lower_leg_abs_angle
  let left_ankle : Point := (left_knee.1 + ll.1, left_knee.2 + ll.2)
  let right_lower_leg_abs_angle : ℝ := angles.right_upper_leg + angles.right_lower_leg
  let rl := polar_vector lengths.lower_leg right_lower_leg_abs_angle
  let right_ankle : Point := (right_knee.1 + rl.1, right_knee.2 + rl.2)
  -- Head centre
  let head_center : Point := (hip_x, neck_y - lengths.head_radius)
  { hip_center := hip_center
    left_hip := left_hip
    right_hip := right_hip
    neck := neck_center
    head_center := head_center
    left_shoulder := left_shoulder
    right_shoulder := right_shoulder
    left_elbow := left_elbow
    right_elbow := right_elbow
    left_wrist := left_wrist
    right_wrist := right_wrist
    left_knee := left_knee
    right_knee := right_knee
    left_ankle := left_ankle
    right_ankle := right_ankle }

/-- The fixed `lengths` dict of `generate_images` (source lines 233-242). -/
def lengths_config : LengthConfig :=
  { torso := 120
    upper_arm := 80
    lower_arm := 70
    upper_leg := 110
    lower_leg := 100
    head_radius := 50
    shoulder_width := 30
    hip_offset := 30 }

/-- The all-zero angle set. -/
def zero_angles : AngleSet :=
  { left_upper_arm := 0
    left_lower_arm := 0
    right_upper_arm := 0
    right_lower_arm := 0
    left_upper_leg := 0
    left_lower_leg := 0
    right_upper_leg := 0
    right_lower_leg := 0 }

/-- Euclidean distance between two points. -/
noncomputable def euclid_dist (p q : Point) : ℝ :=
  Real.sqrt ((p.1 - q.1) ^ 2 + (p.2 - q.2) ^ 2)

/-- Mirror image of a point across the vertical line `x = c`. -/
def mirror_x (c : ℝ) (p : Point) : Point := (2 * c - p.1, p.2)

/-- The point at distance `L` (nonnegative) from `p` in direction
`polar_vector L a` is at Euclidean distance `L` from `p`. -/
theorem euclid_dist_polar_offset (p : Point) (L a : ℝ) (hL : 0 ≤ L) :
    euclid_dist (p.1 + (polar_vector L a).1, p.2 + (polar_vector L a).2) p = L := by
  have hsq : (p.1 + (polar_vector L a).1 - p.1) ^ 2
      + (p.2 + (polar_vector L a).2 - p.2) ^ 2 = L ^ 2 := by
    simp only [polar_vector]
    linear_combination L ^ 2 * Real.sin_sq_add_cos_sq a
  rw [euclid_dist, hsq, Real.sqrt_sq hL]

/-- C1: for every side and limb and all real angle and length values, the
lower-segment endpoint (wrist or ankle) equals the upper-segment endpoint
(elbow or knee) plus `polar_vector(lower length, upper angle + lower angle)`
— lower-limb angles are relative to the upper segment's absolute
orientation, not to the vertical axis. -/
theorem lower_segment_angle_relative (hip_x hip_y : ℝ) (lengths : LengthConfig)
    (angles : AngleSet) :
    (compute_skeleton hip_x hip_y lengths angles).left_wrist =
      ((compute_skeleton hip_x hip_y lengths angles).left_elbow.1 +
        (polar_vector lengths.lower_arm
          (angles.left_upper_arm + angles.left_lower_arm)).1,
       (compute_skeleton hip_x hip_y lengths angles).left_elbow.2 +
        (polar_vector lengths.lower_arm
          (angles.left_upper_arm + angles.left_lower_arm)).2)
  ∧ (compute_skeleton hip_x hip_y lengths angles).right_wrist =
      ((compute_skeleton hip_x hip_y lengths angles).right_elbow.1 +
        (polar_vector lengths.lower_arm
          (angles.right_upper_arm + angles.right_lower_arm)).1,
       (compute_skeleton hip_x hip_y lengths angles).right_elbow.2 +
        (polar_vector lengths.lower_arm
          (angles.right_upper_arm + angles.right_lower_arm)).2)
  ∧ (compute_skeleton hip_x hip_y lengths angles).left_ankle =
      ((compute_skeleton hip_x hip_y lengths angles).left_knee.1 +
        (polar_vector lengths.lower_leg
          (angles.left_upper_leg + angles.left_lower_leg)).1,
       (compute_skeleton hip_x hip_y lengths angles).left_knee.2 +
        (polar_vector lengths.lower_leg
          (angles.left_upper_leg + angles.left_lower_leg)).2)
  ∧ (compute_skeleton hip_x hip_y lengths angles).right_ankle =
      ((compute_skeleton hip_x hip_y lengths angles).right_knee.1 +
        (polar_vector lengths.lower_leg
          (angles.right_upper_leg + angles.right_lower_leg)).1,
       (compute_skeleton hip_x hip_y lengths angles).right_knee.2 +
        (polar_vector lengths.lower_leg
          (angles.right_upper_leg + angles.right_lower_leg)).2) :=
  ⟨rfl, rfl, rfl, rfl⟩

/-- C2: chain closure — for every limb and all real angle values (negative
or beyond ±π included), the Euclidean distance between the lower-segment
endpoint and the upper-segment endpoint equals the configured lower-segment
length, provided that configured length is nonnegative (the program's
configuration uses 70 and 100). -/
theorem chain_closure (hip_x hip_y : ℝ) (lengths : LengthConfig)
    (angles : AngleSet) (harm : 0 ≤ lengths.lower_arm)
    (hleg : 0 ≤ lengths.lower_leg) :
    euclid_dist (compute_skeleton hip_x hip_y lengths angles).left_wrist
      (compute_skeleton hip_x hip_y lengths angles).left_elbow = lengths.lower_arm
  ∧ euclid_dist (compute_skeleton hip_x hip_y lengths angles).right_wrist
      (compute_skeleton hip_x hip_y lengths angles).right_elbow = lengths.lower_arm
  ∧ euclid_dist (compute_skeleton hip_x hip_y lengths angles).left_ankle
      (compute_skeleton hip_x hip_y lengths angles).left_knee = lengths.lower_leg
  ∧ euclid_dist (compute_skeleton hip_x hip_y lengths angles).right_ankle
      (compute_skeleton hip_x hip_y lengths angles).right_knee = lengths.lower_leg :=
  ⟨euclid_dist_polar_offset _ _ _ harm, euclid_dist_polar_offset _ _ _ harm,
   euclid_dist_polar_offset _ _ _ hleg, euclid_dist_polar_offset _ _ _ hleg⟩

/-- Witness for `chain_closure` at the program's configuration and a
concrete angle set. -/
theorem chain_closure_witness :
    (0 ≤ lengths_config.lower_arm ∧ 0 ≤ lengths_config.lower_leg)
  ∧ euclid_dist (compute_skeleton 200 500 lengths_config zero_angles).left_wrist
      (compute_skeleton 200 500 lengths_config zero_angles).left_elbow
      = lengths_config.lower_arm := by
  refine ⟨⟨by norm_num [lengths_config], by norm_num [lengths_config]⟩, ?_⟩
  exact (chain_closure 200 500 lengths_config zero_angles
    (by norm_num [lengths_config]) (by norm_num [lengths_config])).1

/-- C3: with all angles zero and the program's lengths (torso 120,
upper_arm 80, shoulder_width 30) and hip root (200, 500), the solver
returns neck (200, 380), left_shoulder (170, 380), left_elbow (170, 460);
and in general with all angles zero every limb segment points straight
down (same x, y grown by the segment length). -/
theorem zero_angles_straight_down :
    ((compute_skeleton 200 500 lengths_config zero_angles).neck = (200, 380)
    ∧ (compute_skeleton 200 500 lengths_config zero_angles).left_shoulder = (170, 380)
    ∧ (compute_skeleton 200 500 lengths_config zero_angles).left_elbow = (170, 460))
  ∧ ∀ (hip_x hip_y : ℝ) (lengths : LengthConfig),
      (compute_skeleton hip_x hip_y lengths zero_angles).left_elbow =
        ((compute_skeleton hip_x hip_y lengths zero_angles).left_shoulder.1,
         (compute_skeleton hip_x hip_y lengths zero_angles).left_shoulder.2 + lengths.upper_arm)
    ∧ (compute_skeleton hip_x hip_y lengths zero_angles).right_elbow =
        ((compute_skeleton hip_x hip_y lengths zero_angles).right_shoulder.1,
         (compute_skeleton hip_x hip_y lengths zero_angles).right_shoulder.2 + lengths.upper_arm)
    ∧ (compute_skeleton hip_x hip_y lengths zero_angles).left_wrist =
        ((compute_skeleton hip_x hip_y lengths zero_angles).left_elbow.1,
         (compute_skeleton hip_x hip_y lengths zero_angles).left_elbow.2 + lengths.lower_arm)
    ∧ (compute_skeleton hip_x hip_y lengths zero_angles).right_wrist =
        ((compute_skeleton hip_x hip_y lengths zero_angles).right_elbow.1,
         (compute_skeleton hip_x hip_y lengths zero_angles).right_elbow.2 + lengths.lower_arm)
    ∧ (compute_skeleton hip_x hip_y lengths zero_angles).left_knee =
        ((compute_skeleton hip_x hip_y lengths zero_angles).left_hip.1,
         (compute_skeleton hip_x hip_y lengths zero_angles).left_hip.2 + lengths.upper_leg)
    ∧ (compute_skeleton hip_x hip_y lengths zero_angles).right_knee =
        ((compute_skeleton hip_x hip_y lengths zero_angles).right_hip.1,
         (compute_skeleton hip_x hip_y lengths zero_angles).right_hip.2 + lengths.upper_leg)
    ∧ (compute_skeleton hip_x hip_y lengths zero_angles).left_ankle =
        ((compute_skeleton hip_x hip_y lengths zero_angles).left_knee.1,
         (compute_skeleton hip_x hip_y lengths zero_angles).left_knee.2 + lengths.lower_leg)
    ∧ (compute_skeleton hip_x hip_y lengths zero_angles).right_ankle =
        ((compute_skeleton hip_x hip_y lengths zero_angles).right_knee.1,
         (compute_skeleton hip_x hip_y lengths zero_angles).right_knee.2 + lengths.lower_leg) := by
  constructor
  · refine ⟨?_, ?_, ?_⟩ <;>
      simp [compute_skeleton, polar_vector, zero_angles, lengths_config, Prod.ext_iff] <;>
      norm_num
  · intro hip_x hip_y lengths
    refine ⟨?_, ?_, ?_, ?_, ?_, ?_, ?_, ?_⟩ <;>
      simp [compute_skeleton, polar_vector, zero_angles, Prod.ext_iff]

/-- An angle set whose left-side angles equal the corresponding right-side
angles (both upper arms at π/2, everything else 0). -/
noncomputable def equal_sides_angles : AngleSet :=
  { left_upper_arm := Real.pi / 2
    left_lower_arm := 0
    right_upper_arm := Real.pi / 2
    right_lower_arm := 0
    left_upper_leg := 0
    left_lower_leg := 0
    right_upper_leg := 0
    right_lower_leg := 0 }

/-- Counterexample to C4 as stated: with every left-side angle equal to the
corresponding right-side angle (upper arms at π/2), the left elbow is not
the mirror image of the right elbow across the vertical line through
hip_center's x. -/
theorem symmetry_equal_angles_counterexample :
    (equal_sides_angles.left_upper_arm = equal_sides_angles.right_upper_arm
    ∧ equal_sides_angles.left_lower_arm = equal_sides_angles.right_lower_arm
    ∧ equal_sides_angles.left_upper_leg = equal_sides_angles.right_upper_leg
    ∧ equal_sides_angles.left_lower_leg = equal_sides_angles.right_lower_leg)
  ∧ (compute_skeleton 200 500 lengths_config equal_sides_angles).left_elbow ≠
      mirror_x (compute_skeleton 200 500 lengths_config equal_sides_angles).hip_center.1
        (compute_skeleton 200 500 lengths_config equal_sides_angles).right_elbow := by
  refine ⟨⟨rfl, rfl, rfl, rfl⟩, ?_⟩
  simp only [compute_skeleton, polar_vector, mirror_x, equal_sides_angles,
    lengths_config, Real.sin_pi_div_two, Real.cos_pi_div_two, ne_eq,
    Prod.ext_iff, not_and]
  intro h
  norm_num at h

/-- C4 amended: if every left-side angle is the *negation* of the
corresponding right-side angle, each left_* joint is the mirror image of
the corresponding right_* joint across the vertical line through
hip_center's x. -/
theorem symmetry_negated_angles (hip_x hip_y : ℝ) (lengths : LengthConfig)
    (a : AngleSet)
    (h1 : a.left_upper_arm = -a.right_upper_arm)
    (h2 : a.left_lower_arm = -a.right_lower_arm)
    (h3 : a.left_upper_leg = -a.right_upper_leg)
    (h4 : a.left_lower_leg = -a.right_lower_leg) :
    (compute_skeleton hip_x hip_y lengths a).left_hip =
      mirror_x (compute_skeleton hip_x hip_y lengths a).hip_center.1
        (compute_skeleton hip_x hip_y lengths a).right_hip
  ∧ (compute_skeleton hip_x hip_y lengths a).left_shoulder =
      mirror_x (compute_skeleton hip_x hip_y lengths a).hip_center.1
        (compute_skeleton hip_x hip_y lengths a).right_shoulder
  ∧ (compute_skeleton hip_x hip_y lengths a).left_elbow =
      mirror_x (compute_skeleton hip_x hip_y lengths a).hip_center.1
        (compute_skeleton hip_x hip_y lengths a).right_elbow
  ∧ (compute_skeleton hip_x hip_y lengths a).left_wrist =
      mirror_x (compute_skeleton hip_x hip_y lengths a).hip_center.1
        (compute_skeleton hip_x hip_y lengths a).right_wrist
  ∧ (compute_skeleton hip_x hip_y lengths a).left_knee =
      mirror_x (compute_skeleton hip_x hip_y lengths a).hip_center.1
        (compute_skeleton hip_x hip_y lengths a).right_knee
  ∧ (compute_skeleton hip_x hip_y lengths a).left_ankle =
      mirror_x (compute_skeleton hip_x hip_y lengths a).hip_center.1
        (compute_skeleton hip_x hip_y lengths a).right_ankle := by
  have e1 : -a.right_upper_arm + -a.right_lower_arm =
      -(a.right_upper_arm + a.right_lower_arm) := by ring
  have e2 : -a.right_upper_leg + -a.right_lower_leg =
      -(a.right_upper_leg + a.right_lower_leg) := by ring
  refine ⟨?_, ?_, ?_, ?_, ?_, ?_⟩ <;>
    simp only [compute_skeleton, polar_vector, mirror_x, h1, h2, h3, h4,
      e1, e2, Real.sin_neg, Real.cos_neg, Prod.ext_iff] <;>
    constructor <;> ring_nf

/-- Witness for `symmetry_negated_angles` at the all-zero angle set. -/
theorem symmetry_negated_angles_witness :
    (zero_angles.left_upper_arm = -zero_angles.right_upper_arm
    ∧ zero_angles.left_lower_arm = -zero_angles.right_lower_arm
    ∧ zero_angles.left_upper_leg = -zero_angles.right_upper_leg
    ∧ zero_angles.left_lower_leg = -zero_angles.right_lower_leg)
  ∧ (compute_skeleton 200 500 lengths_config zero_angles).left_elbow =
      mirror_x (compute_skeleton 200 500 lengths_config zero_angles).hip_center.1
        (compute_skeleton 200 500 lengths_config zero_angles).right_elbow := by
  refine ⟨⟨by norm_num [zero_angles], by norm_num [zero_angles],
    by norm_num [zero_angles], by norm_num [zero_angles]⟩, ?_⟩
  exact (symmetry_negated_angles 200 500 lengths_config zero_angles
    (by norm_num [zero_angles]) (by norm_num [zero_angles])
    (by norm_num [zero_angles]) (by norm_num [zero_angles])).2.2.1

/-- Two angle sets agree on the four arm angles. -/
def arm_angles_eq (a b : AngleSet) : Prop :=
  a.left_upper_arm = b.left_upper_arm ∧ a.left_lower_arm = b.left_lower_arm
  ∧ a.right_upper_arm = b.right_upper_arm ∧ a.right_lower_arm = b.right_lower_arm

/-- Two angle sets agree on the four leg angles. -/
def leg_angles_eq (a b : AngleSet) : Prop :=
  a.left_upper_leg = b.left_upper_leg ∧ a.left_lower_leg = b.left_lower_leg
  ∧ a.right_upper_leg = b.right_upper_leg ∧ a.right_lower_leg = b.right_lower_leg

/-- Two angle sets agree on the four left-side angles. -/
def left_angles_eq (a b : AngleSet) : Prop :=
  a.left_upper_arm = b.left_upper_arm ∧ a.left_lower_arm = b.left_lower_arm
  ∧ a.left_upper_leg = b.left_upper_leg ∧ a.left_lower_leg = b.left_lower_leg

/-- Two angle sets agree on the four right-side angles. -/
def right_angles_eq (a b : AngleSet) : Prop :=
  a.right_upper_arm = b.right_upper_arm ∧ a.right_lower_arm = b.right_lower_arm
  ∧ a.right_upper_leg = b.right_upper_leg ∧ a.right_lower_leg = b.right_lower_leg

/-- C10: noninterference of limb chains — torso/head/shoulder/elbow/wrist
joints depend only on the arm angles, hip/knee/ankle joints only on the leg
angles, left-side joints only on left-side angles, right-side joints only
on right-side angles. -/
theorem limb_chain_noninterference (hip_x hip_y : ℝ) (lengths : LengthConfig)
    (a b : AngleSet) :
    (arm_angles_eq a b →
      (compute_skeleton hip_x hip_y lengths a).hip_center =
        (compute_skeleton hip_x hip_y lengths b).hip_center
    ∧ (compute_skeleton hip_x hip_y lengths a).neck =
        (compute_skeleton hip_x hip_y lengths b).neck
    ∧ (compute_skeleton hip_x hip_y lengths a).head_center =
        (compute_skeleton hip_x hip_y lengths b).head_center
    ∧ (compute_skeleton hip_x hip_y lengths a).left_shoulder =
        (compute_skeleton hip_x hip_y lengths b).left_shoulder
    ∧ (compute_skeleton hip_x hip_y lengths a).right_shoulder =
        (compute_skeleton hip_x hip_y lengths b).right_shoulder
    ∧ (compute_skeleton hip_x hip_y lengths a).left_elbow =
        (compute_skeleton hip_x hip_y lengths b).left_elbow
    ∧ (compute_skeleton hip_x hip_y lengths a).right_elbow =
        (compute_skeleton hip_x hip_y lengths b).right_elbow
    ∧ (compute_skeleton hip_x hip_y lengths a).left_wrist =
        (compute_skeleton hip_x hip_y lengths b).left_wrist
    ∧ (compute_skeleton hip_x hip_y lengths a).right_wrist =
        (compute_skeleton hip_x hip_y lengths b).right_wrist)
  ∧ (leg_angles_eq a b →
      (compute_skeleton hip_x hip_y lengths a).left_hip =
        (compute_skeleton hip_x hip_y lengths b).left_hip
    ∧ (compute_skeleton hip_x hip_y lengths a).right_hip =
        (compute_skeleton hip_x hip_y lengths b).right_hip
    ∧ (compute_skeleton hip_x hip_y lengths a).left_knee =
        (compute_skeleton hip_x hip_y lengths b).left_knee
    ∧ (compute_skeleton hip_x hip_y lengths a).right_knee =
        (compute_skeleton hip_x hip_y lengths b).right_knee
    ∧ (compute_skeleton hip_x hip_y lengths a).left_ankle =
        (compute_skeleton hip_x hip_y lengths b).left_ankle
    ∧ (compute_skeleton hip_x hip_y lengths a).right_ankle =
        (compute_skeleton hip_x hip_y lengths b).right_ankle)
  ∧ (left_angles_eq a b →
      (compute_skeleton hip_x hip_y lengths a).left_hip =
        (compute_skeleton hip_x hip_y lengths b).left_hip
    ∧ (compute_skeleton hip_x hip_y lengths a).left_shoulder =
        (compute_skeleton hip_x hip_y lengths b).left_shoulder
    ∧ (compute_skeleton hip_x hip_y lengths a).left_elbow =
        (compute_skeleton hip_x hip_y lengths b).left_elbow
    ∧ (compute_skeleton hip_x hip_y lengths a).left_wrist =
        (compute_skeleton hip_x hip_y lengths b).left_wrist
    ∧ (compute_skeleton hip_x hip_y lengths a).left_knee =
        (compute_skeleton hip_x hip_y lengths b).left_knee
    ∧ (compute_skeleton hip_x hip_y lengths a).left_ankle =
        (compute_skeleton hip_x hip_y lengths b).left_ankle)
  ∧ (right_angles_eq a b →
      (compute_skeleton hip_x hip_y lengths a).right_hip =
        (compute_skeleton hip_x hip_y lengths b).right_hip
    ∧ (compute_skeleton hip_x hip_y lengths a).right_shoulder =
        (compute_skeleton hip_x hip_y lengths b).right_shoulder
    ∧ (compute_skeleton hip_x hip_y lengths a).right_elbow =
        (compute_skeleton hip_x hip_y lengths b).right_elbow
    ∧ (compute_skeleton hip_x hip_y lengths a).right_wrist =
        (compute_skeleton hip_x hip_y lengths b).right_wrist
    ∧ (compute_skeleton hip_x hip_y lengths a).right_knee =
        (compute_skeleton hip_x hip_y lengths b).right_knee
    ∧ (compute_skeleton hip_x hip_y lengths a).right_ankle =
        (compute_skeleton hip_x hip_y lengths b).right_ankle) := by
  refine ⟨fun h => ?_, fun h => ?_, fun h => ?_, fun h => ?_⟩ <;>
    obtain ⟨e1, e2, e3, e4⟩ := h <;>
    simp [compute_skeleton, polar_vector, e1, e2, e3, e4]

/-- An angle set with straight arms and bent legs, used to witness that leg
angles do not influence arm-chain joints. -/
def bent_legs_angles : AngleSet :=
  { left_upper_arm := 0
    left_lower_arm := 0
    right_upper_arm := 0
    right_lower_arm := 0
    left_upper_leg := 1
    left_lower_leg := 2
    right_upper_leg := 3
    right_lower_leg := 4 }

/-- Witness for `limb_chain_noninterference`: changing only leg angles
leaves the left wrist unchanged. -/
theorem limb_chain_noninterference_witness :
    arm_angles_eq zero_angles bent_legs_angles
  ∧ (compute_skeleton 200 500 lengths_config zero_angles).left_wrist =
      (compute_skeleton 200 500 lengths_config bent_legs_angles).left_wrist := by
  refine ⟨⟨rfl, rfl, rfl, rfl⟩, ?_⟩
  exact ((limb_chain_noninterference 200 500 lengths_config zero_angles
    bent_legs_angles).1 ⟨rfl, rfl, rfl, rfl⟩).2.2.2.2.2.2.2.1

/-! ### Dict-level embedding of `compute_skeleton`

The Python function receives its `lengths` and `angles` arguments as
mutable dicts. To reason about (non-)mutation we re-embed the function at
the dict level: dicts are association lists, the environment holding the
two argument dicts is threaded through every subscript access explicitly,
and a missing key (Python's KeyError) aborts the computation. -/

/-- A Python dict of float values, as an association list. -/
abbrev Dict := List (String × ℝ)

/-- `d[k]`: first binding of key `k`, if any. -/
def dict_get (d : Dict) (k : String) : Option ℝ :=
  match d with
  | [] => none
  | (k2, v) :: rest => if k2 = k then some v else dict_get rest k

/-- The mutable environment visible to `compute_skeleton`: the two dict
arguments it was passed. -/
structure PyEnv where
  lengths : Dict
  angles : Dict

/-- A Python computation over the two dict arguments: threads the
environment explicitly; `none` is an uncaught exception (KeyError). -/
def PyM (α : Type) := PyEnv → Option α × PyEnv

instance monadPyM : Monad PyM where
  pure a := fun env => (some a, env)
  bind m f := fun env =>
    match m env with
    | (some a, env2) => f a env2
    | (none, env2) => (none, env2)

/-- Unfolding lemma for `PyM` bind. -/
theorem pyM_bind_apply {α β : Type} (m : PyM α) (f : α → PyM β) (env : PyEnv) :
    (m >>= f) env =
      match m env with
      | (some a, env2) => f a env2
      | (none, env2) => (none, env2) := rfl

/-- Unfolding lemma for `PyM` pure. -/
theorem pyM_pure_apply {α : Type} (a : α) (env : PyEnv) :
    (pure a : PyM α) env = (some a, env) := rfl

/-- The subscript read `lengths[k]`. -/
def read_length (k : String) : PyM ℝ := fun env => (dict_get env.lengths k, env)

/-- The subscript read `angles[k]`. -/
def read_angle (k : String) : PyM ℝ := fun env => (dict_get env.angles k, env)

/-- `compute_skeleton` transcribed at the dict level: every subscript
access of the source (lines 57-103), in source evaluation order, becomes a
monadic read; the returned `joints` dict literal is lines 105-121. -/
noncomputable def compute_skeleton_dict (hip_x hip_y : ℝ) :
    PyM (List (String × Point)) := do
  let hip_center : Point := (hip_x, hip_y)
  let ho1 ← read_length "hip_offset"
  let left_hip : Point := (hip_x - ho1, hip_y)
  let ho2 ← read_length "hip_offset"
  let right_hip : Point := (hip_x + ho2, hip_y)
  let t ← read_length "torso"
  let neck_y : ℝ := hip_y - t
  let neck_center : Point := (hip_x, neck_y)
  let sw ← read_length "shoulder_width"
  let shoulder_y : ℝ := neck_y
  let left_shoulder : Point := (hip_x - sw, shoulder_y)
  let right_shoulder : Point := (hip_x + sw, shoulder_y)
  -- Upper arms
  let ua1 ← read_length "upper_arm"
  let a_lua ← read_angle "left_upper_arm"
  let lu := polar_vector ua1 a_lua
  let left_elbow : Point := (left_shoulder.1 + lu.1, left_shoulder.2 + lu.2)
  let ua2 ← read_length "upper_arm"
  let a_rua ← read_angle "right_upper_arm"
  let ru := polar_vector ua2 a_rua
  let right_elbow : Point := (right_shoulder.1 + ru.1, right_shoulder.2 + ru.2)
  -- Lower arms
  let a_lua2 ← read_angle "left_upper_arm"
  let a_lla ← read_angle "left_lower_arm"
  let left_lower_abs_angle : ℝ := a_lua2 + a_lla
  let la1 ← read_length "lower_arm"
  let lwa := polar_vector la1 left_lower_abs_angle
  let left_wrist : Point := (left_elbow.1 + lwa.1, left_elbow.2 + lwa.2)
  let a_rua2 ← read_angle "right_upper_arm"
  let a_rla ← read_angle "right_lower_arm"
  let right_lower_abs_angle : ℝ := a_rua2 + a_rla
  let la2 ← read_length "lower_arm"
  let rla := polar_vector la2 right_lower_abs_angle
  let right_wrist : Point := (right_elbow.1 + rla.1, right_elbow.2 + rla.2)
  -- Upper legs
  let ul1 ← read_length "upper_leg"
  let a_lul ← read_angle "left_upper_leg"
  let lk := polar_vector ul1 a_lul
  let left_knee : Point := (left_hip.1 + lk.1, left_hip.2 + lk.2)
  let ul2 ← read_length "upper_leg"
  let a_rul ← read_angle "right_upper_leg"
  let rk := polar_vector ul2 a_rul
  let right_knee : Point := (right_hip.1 + rk.1, right_hip.2 + rk.2)
  -- Lower legs
  let a_lul2 ← read_angle "left_upper_leg"
  let a_lll ← read_angle "left_lower_leg"
  let left_lower_leg_abs_angle : ℝ := a_lul2 + a_lll
  let lleg1 ← read_length "lower_leg"
  let ll := polar_vector lleg1 left_lower_leg_abs_angle
  let left_ankle : Point := (left_knee.1 + ll.1, left_knee.2 + ll.2)
  let a_rul2 ← read_angle "right_upper_leg"
  let a_rll ← read_angle "right_lower_leg"
  let right_lower_leg_abs_angle : ℝ := a_rul2 + a_rll
  let lleg2 ← read_length "lower_leg"
  let rl := polar_vector lleg2 right_lower_leg_abs_angle
  let right_ankle : Point := (right_knee.1 + rl.1, right_knee.2 + rl.2)
  -- Head centre
  let hr ← read_length "head_radius"
  let head_center : Point := (hip_x, neck_y - hr)
  pure [("hip_center", hip_center),
        ("left_hip", left_hip),
        ("right_hip", right_hip),
        ("neck", neck_center),
        ("head_center", head_center),
        ("left_shoulder", left_shoulder),
        ("right_shoulder", right_shoulder),
        ("left_elbow", left_elbow),
        ("right_elbow", right_elbow),
        ("left_wrist", left_wrist),
        ("right_wrist", right_wrist),
        ("left_knee", left_knee),
        ("right_knee", right_knee),
        ("left_ankle", left_ankle),
        ("right_ankle", right_ankle)]

/-- A `PyM` computation leaves the environment unchanged. -/
def preserves_env {α : Type} (m : PyM α) : Prop := ∀ env, (m env).2 = env

/-- `pure` preserves the environment. -/
theorem preserves_env_pure {α : Type} (a : α) :
    preserves_env (pure a : PyM α) := fun _ => rfl

/-- `bind` of environment-preserving computations preserves the
environment. -/
theorem preserves_env_bind {α β : Type} (m : PyM α) (f : α → PyM β)
    (hm : preserves_env m) (hf : ∀ a, preserves_env (f a)) :
    preserves_env (m >>= f) := by
  intro env
  rw [pyM_bind_apply]
  rcases hme : m env with ⟨o, env2⟩
  have he : env2 = env := by have h2 := hm env; rw [hme] at h2; exact h2
  subst he
  cases o with
  | none => rfl
  | some a => exact hf a _

/-- The `joints` dict literal (source lines 105-121) built from a
`JointMap`. -/
def joints_dict (j : JointMap) : List (String × Point) :=
  [("hip_center", j.hip_center),
   ("left_hip", j.left_hip),
   ("right_hip", j.right_hip),
   ("neck", j.neck),
   ("head_center", j.head_center),
   ("left_shoulder", j.left_shoulder),
   ("right_shoulder", j.right_shoulder),
   ("left_elbow", j.left_elbow),
   ("right_elbow", j.right_elbow),
   ("left_wrist", j.left_wrist),
   ("right_wrist", j.right_wrist),
   ("left_knee", j.left_knee),
   ("right_knee", j.right_knee),
   ("left_ankle", j.left_ankle),
   ("right_ankle", j.right_ankle)]

/-- The `lengths` dict (source lines 233-242) encoding a `LengthConfig`. -/
def lengths_dict_of (L : LengthConfig) : Dict :=
  [("torso", L.torso),
   ("upper_arm", L.upper_arm),
   ("lower_arm", L.lower_arm),
   ("upper_leg", L.upper_leg),
   ("lower_leg", L.lower_leg),
   ("head_radius", L.head_radius),
   ("shoulder_width", L.shoulder_width),
   ("hip_offset", L.hip_offset)]

/-- The `angles` dict (source lines 267-276) encoding an `AngleSet`. -/
def angles_dict_of (A : AngleSet) : Dict :=
  [("left_upper_arm", A.left_upper_arm),
   ("left_lower_arm", A.left_lower_arm),
   ("right_upper_arm", A.right_upper_arm),
   ("right_lower_arm", A.right_lower_arm),
   ("left_upper_leg", A.left_upper_leg),
   ("left_lower_leg", A.left_lower_leg),
   ("right_upper_leg", A.right_upper_leg),
   ("right_lower_leg", A.right_lower_leg)]

/-- C9: `compute_skeleton` does not mutate its inputs — the environment
holding the `lengths` and `angles` dicts is unchanged by the call (same
keys, same values), and on the dicts the program passes the call returns
the fresh 15-entry joint dict of the structural solver. -/
theorem compute_skeleton_no_mutation (hip_x hip_y : ℝ) (env : PyEnv) :
    (compute_skeleton_dict hip_x hip_y env).2 = env
  ∧ ∀ (L : LengthConfig) (A : AngleSet),
      env.lengths = lengths_dict_of L → env.angles = angles_dict_of A →
      (compute_skeleton_dict hip_x hip_y env).1 =
        some (joints_dict (compute_skeleton hip_x hip_y L A)) := by
  constructor
  · have hp : preserves_env (compute_skeleton_dict hip_x hip_y) := by
      unfold compute_skeleton_dict
      repeat' first
        | apply preserves_env_bind
        | exact fun _ => rfl
        | intro a
    exact hp env
  · intro L A hL hA
    obtain ⟨lengths, angles⟩ := env
    simp only at hL hA
    subst hL hA
    simp [compute_skeleton_dict, compute_skeleton, joints_dict,
      lengths_dict_of, angles_dict_of, dict_get, read_length, read_angle,
      pyM_bind_apply, pyM_pure_apply]

/-- Witness for `compute_skeleton_no_mutation` at the program's dicts. -/
theorem compute_skeleton_no_mutation_witness :
    (compute_skeleton_dict 200 500
        ⟨lengths_dict_of lengths_config, angles_dict_of zero_angles⟩).2 =
      ⟨lengths_dict_of lengths_config, angles_dict_of zero_angles⟩
  ∧ (compute_skeleton_dict 200 500
        ⟨lengths_dict_of lengths_config, angles_dict_of zero_angles⟩).1 =
      some (joints_dict (compute_skeleton 200 500 lengths_config zero_angles)) := by
  refine ⟨(compute_skeleton_no_mutation 200 500 _).1, ?_⟩
  exact (compute_skeleton_no_mutation 200 500 _).2 lengths_config zero_angles rfl rfl

/-! ### Frame rendering and the generation loop

`StickFigureApp.generate_images` (source lines 206-339) is embedded as a
trace of actions: the `os.makedirs` call, one `img.save` per frame carrying
the frame's draw commands, and one `queue.put` per progress event. The
randomly sampled per-frame angle sets and the font-metric measurements
(which depend on the environment's fonts) are oracles passed in as
parameters; every claim below holds for all oracles. -/

/-- An RGB triple. -/
abbrev RGB := ℕ × ℕ × ℕ

/-- Association-list lookup (Python dict subscript; `none` is a KeyError). -/
def assoc_get {β : Type} (d : List (String × β)) (k : String) : Option β :=
  match d with
  | [] => none
  | (k2, v) :: rest => if k2 = k then some v else assoc_get rest k

/-- The fixed `extremity_colors` dict (source lines 214-223). -/
def extremity_colors : List (String × RGB) :=
  [("left_upper_arm", (255, 165, 0)),
   ("left_lower_arm", (255, 255, 0)),
   ("right_upper_arm", (128, 0, 128)),
   ("right_lower_arm", (0, 255, 255)),
   ("left_upper_leg", (0, 0, 255)),
   ("left_lower_leg", (0, 255, 0)),
   ("right_upper_leg", (255, 105, 180)),
   ("right_lower_leg", (255, 0, 255))]

/-- `joint_color` (source line 226). -/
def joint_color : RGB := (255, 0, 0)

/-- `torso_color` (source line 227). -/
def torso_color : RGB := (128, 128, 128)

/-- `head_color` (source line 228). -/
def head_color : RGB := (255, 255, 255)

/-- `segment_width` (source line 229). -/
def segment_width : ℕ := 8

/-- `joint_radius` (source line 230). -/
def joint_radius : ℕ := 6

/-- The `segments` list (source lines 295-304): segment name, start joint
key, end joint key. -/
def segments : List (String × String × String) :=
  [("left_upper_arm", "left_shoulder", "left_elbow"),
   ("left_lower_arm", "left_elbow", "left_wrist"),
   ("right_upper_arm", "right_shoulder", "right_elbow"),
   ("right_lower_arm", "right_elbow", "right_wrist"),
   ("left_upper_leg", "left_hip", "left_knee"),
   ("left_lower_leg", "left_knee", "left_ankle"),
   ("right_upper_leg", "right_hip", "right_knee"),
   ("right_lower_leg", "right_knee", "right_ankle")]

/-- One drawing primitive applied to the Pillow canvas. -/
inductive DrawCmd where
  | line (p q : Point) (color : RGB) (width : ℕ)
  | ellipse (x0 y0 x1 y1 : ℝ) (fill outline : RGB)
  | text (x y : ℤ) (str : String) (fill : RGB)

/-- One iteration of the limb-drawing loop (source lines 306-309): look up
the segment's colour, then the two joint endpoints (KeyError aborts); the
segment name is carried along to record which segment the draw belongs
to. -/
def limb_draw (joints : List (String × Point)) (seg : String × String × String) :
    Option (String × Point × Point × RGB) := do
  let color ← assoc_get extremity_colors seg.1
  let p ← assoc_get joints seg.2.1
  let q ← assoc_get joints seg.2.2
  pure (seg.1, p, q, color)

/-- The limb-drawing loop, iterating over a list of segment triples. -/
def limb_draws_go (joints : List (String × Point)) :
    List (String × String × String) → Option (List (String × Point × Point × RGB))
  | [] => some []
  | seg :: rest => do
    let d ← limb_draw joints seg
    let ds ← limb_draws_go joints rest
    pure (d :: ds)

/-- The limb-drawing loop over all 8 segments. -/
def limb_draws (joints : List (String × Point)) :
    Option (List (String × Point × Point × RGB)) :=
  limb_draws_go joints segments

/-- All draw commands of one frame (source lines 280-329): torso stroke,
head circle, 8 limb strokes, 15 joint markers, optional index label.
`metrics` abstracts the font-dependent text measurement (`textbbox` /
`textsize`), `i` is the 1-based frame index. -/
noncomputable def render_cmds (i : ℕ) (show_numbers : Bool)
    (metrics : String → ℤ × ℤ) (joints : List (String × Point))
    (head_radius : ℝ) : Option (List DrawCmd) := do
  let hip_c ← assoc_get joints "hip_center"
  let neck_c ← assoc_get joints "neck"
  let torso_cmd := DrawCmd.line hip_c neck_c torso_color segment_width
  let head_c ← assoc_get joints "head_center"
  let head_cmd := DrawCmd.ellipse (head_c.1 - head_radius) (head_c.2 - head_radius)
    (head_c.1 + head_radius) (head_c.2 + head_radius) head_color head_color
  let limbs ← limb_draws joints
  let limb_cmds := limbs.map (fun x => DrawCmd.line x.2.1 x.2.2.1 x.2.2.2 segment_width)
  let joint_cmds := joints.map (fun p =>
    DrawCmd.ellipse (p.2.1 - (joint_radius : ℝ)) (p.2.2 - (joint_radius : ℝ))
      (p.2.1 + (joint_radius : ℝ)) (p.2.2 + (joint_radius : ℝ)) joint_color joint_color)
  let num_cmds := if show_numbers then
      let num_text := toString i
      let tw := (metrics num_text).1
      let th := (metrics num_text).2
      [DrawCmd.text (1024 - tw - 20) (Int.fdiv (1024 - th) 2) num_text (255, 255, 255)]
    else []
  pure ([torso_cmd, head_cmd] ++ limb_cmds ++ joint_cmds ++ num_cmds)

/-- A generated frame: `Image.new("RGB", (1024, 1024), "black")` plus the
draw commands applied to it (`none` would mean a crash during drawing). -/
structure Frame where
  mode : String
  width : ℕ
  height : ℕ
  background : String
  draws : Option (List DrawCmd)

/-- A progress-queue event: `self.queue.put(i)` or `self.queue.put('DONE')`. -/
inductive Event where
  | progress (n : ℕ)
  | done

/-- One observable action of the generation loop. -/
inductive Act where
  | makedirs (dir : String)
  | save (dir name format : String) (frame : Frame)
  | put (e : Event)

/-- `out_dir` (source line 210). -/
def out_dir : String := "generated_images"

/-- `f"{i:04d}"`: decimal digits of `i`, left-padded with zeros to width 4. -/
def pad4 (i : ℕ) : String :=
  let s := toString i
  if s.length < 4 then String.mk (List.replicate (4 - s.length) '0') ++ s else s

/-- `f"image_{i:04d}.png"` (source line 332). -/
def image_filename (i : ℕ) : String := "image_" ++ pad4 i ++ ".png"

/-- The hip root used for every frame (source lines 262-263). -/
def hip_root : Point := (200, 500)

/-- The frame produced for index `i` with the sampled angle set `angles`:
skeleton from `compute_skeleton(200, 500, lengths, angles)`, rendered onto
a fresh 1024×1024 RGB canvas. -/
noncomputable def frame_of (i : ℕ) (show_numbers : Bool)
    (metrics : String → ℤ × ℤ) (angles : AngleSet) : Frame :=
  { mode := "RGB"
    width := 1024
    height := 1024
    background := "black"
    draws := render_cmds i show_numbers metrics
      (joints_dict (compute_skeleton hip_root.1 hip_root.2 lengths_config angles))
      lengths_config.head_radius }

/-- The action trace of `generate_images(num_images)` (source lines
206-339): create the output directory, then for each `i` in `1..num_images`
save frame `i` and put `i` on the queue, finally put `'DONE'`. `sample i`
is the angle set randomly drawn for frame `i`. -/
noncomputable def generate_images_trace (num_images : ℕ) (sample : ℕ → AngleSet)
    (show_numbers : Bool) (metrics : String → ℤ × ℤ) : List Act :=
  Act.makedirs out_dir ::
  ((List.range num_images).flatMap (fun k =>
    [Act.save out_dir (image_filename (k + 1)) "PNG"
       (frame_of (k + 1) show_numbers metrics (sample (k + 1))),
     Act.put (Event.progress (k + 1))])
  ++ [Act.put Event.done])

/-- The events put on the progress queue, in order. -/
def events_of (trace : List Act) : List Event :=
  trace.filterMap (fun a =>
    match a with
    | Act.put e => some e
    | _ => none)

/-- The payloads of the progress events, in order. -/
def progress_values (trace : List Act) : List ℕ :=
  trace.filterMap (fun a =>
    match a with
    | Act.put (Event.progress k) => some k
    | _ => none)

/-- The files saved, in order: directory, filename, format, frame. -/
def saved_files_of (trace : List Act) : List (String × String × String × Frame) :=
  trace.filterMap (fun a =>
    match a with
    | Act.save dir name format frame => some (dir, name, format, frame)
    | _ => none)

/-- The limb strokes as the spec describes them: each of the 8 named
segments between its two endpoint joints, coloured with the ColorTable's
entry for that segment name. -/
def limb_draw_list (j : JointMap) : List (String × Point × Point × RGB) :=
  [("left_upper_arm", j.left_shoulder, j.left_elbow, (255, 165, 0)),
   ("left_lower_arm", j.left_elbow, j.left_wrist, (255, 255, 0)),
   ("right_upper_arm", j.right_shoulder, j.right_elbow, (128, 0, 128)),
   ("right_lower_arm", j.right_elbow, j.right_wrist, (0, 255, 255)),
   ("left_upper_leg", j.left_hip, j.left_knee, (0, 0, 255)),
   ("left_lower_leg", j.left_knee, j.left_ankle, (0, 255, 0)),
   ("right_upper_leg", j.right_hip, j.right_knee, (255, 105, 180)),
   ("right_lower_leg", j.right_knee, j.right_ankle, (255, 0, 255))]

/-- The full draw-command list of a generated frame, with the limb strokes
taken from `limb_draw_list`: the crash-free rendering every frame performs. -/
noncomputable def frame_cmds (i : ℕ) (show_numbers : Bool)
    (metrics : String → ℤ × ℤ) (j : JointMap) : List DrawCmd :=
  [DrawCmd.line j.hip_center j.neck torso_color segment_width,
   DrawCmd.ellipse (j.head_center.1 - lengths_config.head_radius)
     (j.head_center.2 - lengths_config.head_radius)
     (j.head_center.1 + lengths_config.head_radius)
     (j.head_center.2 + lengths_config.head_radius) head_color head_color] ++
  (limb_draw_list j).map (fun x => DrawCmd.line x.2.1 x.2.2.1 x.2.2.2 segment_width) ++
  (joints_dict j).map (fun p =>
    DrawCmd.ellipse (p.2.1 - (joint_radius : ℝ)) (p.2.2 - (joint_radius : ℝ))
      (p.2.1 + (joint_radius : ℝ)) (p.2.2 + (joint_radius : ℝ)) joint_color joint_color) ++
  (if show_numbers then
      [DrawCmd.text (1024 - (metrics (toString i)).1 - 20)
        (Int.fdiv (1024 - (metrics (toString i)).2) 2) (toString i) (255, 255, 255)]
    else [])

/-- C5: in every generated frame the limb-drawing loop draws each of the 8
named segments with the colour `extremity_colors` assigns to that name:
the loop's output on any joint dict is exactly `limb_draw_list`, the
name-to-colour assignment it realises is exactly the fixed table — hence
identical for every frame of every run — and every frame's draw list
embeds those strokes. -/
theorem segment_colors_from_table (j : JointMap) :
    limb_draws (joints_dict j) = some (limb_draw_list j)
  ∧ (limb_draw_list j).map (fun x => (x.1, x.2.2.2)) = extremity_colors
  ∧ ∀ (i : ℕ) (show_numbers : Bool) (metrics : String → ℤ × ℤ) (angles : AngleSet),
      (frame_of i show_numbers metrics angles).draws =
        some (frame_cmds i show_numbers metrics
          (compute_skeleton hip_root.1 hip_root.2 lengths_config angles)) := by
  refine ⟨?_, rfl, ?_⟩
  · simp [limb_draws, limb_draws_go, limb_draw, limb_draw_list, segments,
      joints_dict, extremity_colors, assoc_get]
  · intro i show_numbers metrics angles
    simp [frame_of, render_cmds, frame_cmds, limb_draws, limb_draws_go,
      limb_draw, limb_draw_list, segments, joints_dict, extremity_colors,
      assoc_get]

/-- The progress-queue events of a generation loop body: `Progress(k+1)`
for `k` in `range n`, in order. -/
theorem events_filterMap_loop (n : ℕ) (sample : ℕ → AngleSet)
    (show_numbers : Bool) (metrics : String → ℤ × ℤ) :
    ((List.range n).flatMap (fun k =>
      [Act.save out_dir (image_filename (k + 1)) "PNG"
         (frame_of (k + 1) show_numbers metrics (sample (k + 1))),
       Act.put (Event.progress (k + 1))])).filterMap (fun a =>
        match a with
        | Act.put e => some e
        | _ => none) = (List.range' 1 n).map Event.progress := by
  induction n with
  | zero => rfl
  | succ m ih =>
    rw [List.range_succ, List.flatMap_append, List.filterMap_append, ih,
      List.range'_1_concat]
    simp [Nat.add_comm]

/-- The progress payloads of a generation loop body: `1..n` in order. -/
theorem values_filterMap_loop (n : ℕ) (sample : ℕ → AngleSet)
    (show_numbers : Bool) (metrics : String → ℤ × ℤ) :
    ((List.range n).flatMap (fun k =>
      [Act.save out_dir (image_filename (k + 1)) "PNG"
         (frame_of (k + 1) show_numbers metrics (sample (k + 1))),
       Act.put (Event.progress (k + 1))])).filterMap (fun a =>
        match a with
        | Act.put (Event.progress k) => some k
        | _ => none) = List.range' 1 n := by
  induction n with
  | zero => rfl
  | succ m ih =>
    rw [List.range_succ, List.flatMap_append, List.filterMap_append, ih,
      List.range'_1_concat]
    simp [Nat.add_comm]

/-- The files saved by a generation loop body, in order. -/
theorem saved_filterMap_loop (n : ℕ) (sample : ℕ → AngleSet)
    (show_numbers : Bool) (metrics : String → ℤ × ℤ) :
    ((List.range n).flatMap (fun k =>
      [Act.save out_dir (image_filename (k + 1)) "PNG"
         (frame_of (k + 1) show_numbers metrics (sample (k + 1))),
       Act.put (Event.progress (k + 1))])).filterMap (fun a =>
        match a with
        | Act.save dir name format frame => some (dir, name, format, frame)
        | _ => none) =
      (List.range' 1 n).map (fun i =>
        (out_dir, image_filename i, "PNG", frame_of i show_numbers metrics (sample i))) := by
  induction n with
  | zero => rfl
  | succ m ih =>
    rw [List.range_succ, List.flatMap_append, List.filterMap_append, ih,
      List.range'_1_concat]
    simp [Nat.add_comm]

/-- C6: the progress channel of a run with total count `n` carries exactly
`Progress(1), ..., Progress(n)` in strictly increasing order with no gaps
or duplicates, followed by exactly one terminal `Done` and nothing after
it; and each `Progress(k+1)` is put on the queue immediately after (hence
only after) frame `k+1`'s file save. -/
theorem progress_channel_ordering (n : ℕ) (sample : ℕ → AngleSet)
    (show_numbers : Bool) (metrics : String → ℤ × ℤ) :
    events_of (generate_images_trace n sample show_numbers metrics) =
      (List.range' 1 n).map Event.progress ++ [Event.done]
  ∧ List.Pairwise (· < ·)
      (progress_values (generate_images_trace n sample show_numbers metrics))
  ∧ ∀ k, k < n →
      [Act.save out_dir (image_filename (k + 1)) "PNG"
         (frame_of (k + 1) show_numbers metrics (sample (k + 1))),
       Act.put (Event.progress (k + 1))] <:+:
        generate_images_trace n sample show_numbers metrics := by
  refine ⟨?_, ?_, ?_⟩
  · show List.filterMap _ _ = _
    rw [generate_images_trace, List.filterMap_cons, List.filterMap_append,
      events_filterMap_loop]
    rfl
  · show List.Pairwise _ (List.filterMap _ _)
    rw [generate_images_trace, List.filterMap_cons, List.filterMap_append,
      values_filterMap_loop]
    have : List.filterMap (fun a =>
        match a with
        | Act.put (Event.progress k) => some k
        | _ => none) [Act.put Event.done] = [] := rfl
    rw [this, List.append_nil]
    exact List.pairwise_lt_range' 1 n
  · intro k hk
    have hmem : (fun k =>
        [Act.save out_dir (image_filename (k + 1)) "PNG"
           (frame_of (k + 1) show_numbers metrics (sample (k + 1))),
         Act.put (Event.progress (k + 1))]) k ∈
        (List.range n).map (fun k =>
          [Act.save out_dir (image_filename (k + 1)) "PNG"
             (frame_of (k + 1) show_numbers metrics (sample (k + 1))),
           Act.put (Event.progress (k + 1))]) :=
      List.mem_map_of_mem _ (List.mem_range.mpr hk)
    have hinf := List.infix_of_mem_flatten hmem
    rw [← List.flatMap_def] at hinf
    obtain ⟨s, t, hst⟩ := hinf
    exact ⟨Act.makedirs out_dir :: s, t ++ [Act.put Event.done], by
      rw [generate_images_trace, ← hst]; simp⟩

/-- Witness for `progress_channel_ordering`: in a run of 2 frames, the save
of `image_0001.png` immediately precedes `Progress(1)`. -/
theorem progress_channel_ordering_witness :
    0 < 2 ∧
      [Act.save out_dir (image_filename 1) "PNG"
         (frame_of 1 false (fun _ => (0, 0)) zero_angles),
       Act.put (Event.progress 1)] <:+:
        generate_images_trace 2 (fun _ => zero_angles) false (fun _ => (0, 0)) :=
  ⟨by norm_num,
   (progress_channel_ordering 2 (fun _ => zero_angles) false
     (fun _ => (0, 0))).2.2 0 (by norm_num)⟩

/-- C8: a run with count `n` first creates `generated_images/`, then saves
exactly the files `image_0001.png` ... `image_<n padded to 4 digits>.png`
in strictly sequential order starting at 1 with no gaps, each a 1024×1024
RGB raster saved in PNG format. -/
theorem output_files_sequential (n : ℕ) (sample : ℕ → AngleSet)
    (show_numbers : Bool) (metrics : String → ℤ × ℤ) :
    (generate_images_trace n sample show_numbers metrics).head? =
      some (Act.makedirs out_dir)
  ∧ out_dir = "generated_images"
  ∧ saved_files_of (generate_images_trace n sample show_numbers metrics) =
      (List.range' 1 n).map (fun i =>
        (out_dir, image_filename i, "PNG",
         frame_of i show_numbers metrics (sample i)))
  ∧ image_filename 1 = "image_0001.png"
  ∧ image_filename 150 = "image_0150.png"
  ∧ ∀ x ∈ saved_files_of (generate_images_trace n sample show_numbers metrics),
      x.1 = "generated_images" ∧ x.2.2.1 = "PNG"
      ∧ x.2.2.2.mode = "RGB" ∧ x.2.2.2.width = 1024 ∧ x.2.2.2.height = 1024
      ∧ x.2.2.2.background = "black" := by
  have hsaved : saved_files_of (generate_images_trace n sample show_numbers metrics) =
      (List.range' 1 n).map (fun i =>
        (out_dir, image_filename i, "PNG",
         frame_of i show_numbers metrics (sample i))) := by
    show List.filterMap _ _ = _
    rw [generate_images_trace, List.filterMap_cons, List.filterMap_append,
      saved_filterMap_loop]
    simp
  refine ⟨rfl, rfl, hsaved, by decide, by decide, ?_⟩
  intro x hx
  rw [hsaved] at hx
  obtain ⟨i, _, rfl⟩ := List.mem_map.mp hx
  exact ⟨rfl, rfl, rfl, rfl, rfl, rfl⟩

/-- Witness for `output_files_sequential`: the single file of a run with
count 1 is `generated_images/image_0001.png`, a 1024×1024 RGB PNG. -/
theorem output_files_sequential_witness :
    (out_dir, image_filename 1, "PNG", frame_of 1 false (fun _ => (0, 0)) zero_angles) ∈
      saved_files_of (generate_images_trace 1 (fun _ => zero_angles) false (fun _ => (0, 0)))
  ∧ (frame_of 1 false (fun _ => (0, 0)) zero_angles).mode = "RGB"
  ∧ (frame_of 1 false (fun _ => (0, 0)) zero_angles).width = 1024
  ∧ (frame_of 1 false (fun _ => (0, 0)) zero_angles).height = 1024 := by
  have h := output_files_sequential 1 (fun _ => zero_angles) false (fun _ => (0, 0))
  have hmem : (out_dir, image_filename 1, "PNG",
      frame_of 1 false (fun _ => (0, 0)) zero_angles) ∈
      saved_files_of (generate_images_trace 1 (fun _ => zero_angles) false (fun _ => (0, 0))) := by
    rw [h.2.2.1]
    simp
  have hprops := h.2.2.2.2.2 _ hmem
  exact ⟨hmem, hprops.2.2.1, hprops.2.2.2.1, hprops.2.2.2.2.1⟩

/-! ### Input validation (`start_generation`, source lines 176-198) -/

/-- Decimal digits to a number; `none` on an empty or non-digit list. -/
def parse_decimal : List Char → Option ℕ
  | [] => none
  | cs => cs.foldlM (fun acc c =>
      if c.isDigit then some (10 * acc + (c.toNat - 48)) else none) 0

/-- Strip leading and trailing whitespace. -/
def trim_chars (cs : List Char) : List Char :=
  ((cs.dropWhile Char.isWhitespace).reverse.dropWhile Char.isWhitespace).reverse

/-- Modelled Python `int(str)` as `start_generation` uses it: optional
surrounding whitespace, optional single sign, one or more decimal digits;
anything else raises `ValueError` (`none`). -/
def py_int (s : String) : Option ℤ :=
  match trim_chars s.toList with
  | '-' :: rest => (parse_decimal rest).map (fun n => -(n : ℤ))
  | '+' :: rest => (parse_decimal rest).map (fun n => (n : ℤ))
  | cs => (parse_decimal cs).map (fun n => (n : ℤ))

/-- The outcome of `start_generation`: either the "Invalid input" error
dialog (and an immediate return), or the background generation of the
parsed count. -/
inductive StartResult where
  | invalid_input
  | started (trace : List Act)

/-- `start_generation` (source lines 176-198): parse the entry's text;
on `ValueError` or a non-positive value show the error and return, else
run `generate_images(num)` on the worker thread. -/
noncomputable def start_generation (entry_text : String) (sample : ℕ → AngleSet)
    (show_numbers : Bool) (metrics : String → ℤ × ℤ) : StartResult :=
  match py_int entry_text with
  | none => StartResult.invalid_input
  | some num =>
    if num ≤ 0 then StartResult.invalid_input
    else StartResult.started
      (generate_images_trace num.toNat sample show_numbers metrics)

/-- The actions a `start_generation` outcome performs (none at all when the
input was rejected). -/
def actions_of_start (r : StartResult) : List Act :=
  match r with
  | StartResult.invalid_input => []
  | StartResult.started trace => trace

/-- C7: a requested count that is zero, negative, or unparseable is
rejected synchronously: the result is the `invalid_input` error, no action
is performed at all — no directory creation, no file saved, no progress
event. -/
theorem invalid_count_rejected (entry_text : String) (sample : ℕ → AngleSet)
    (show_numbers : Bool) (metrics : String → ℤ × ℤ)
    (h : py_int entry_text = none
       ∨ ∃ num, py_int entry_text = some num ∧ num ≤ 0) :
    start_generation entry_text sample show_numbers metrics =
      StartResult.invalid_input
  ∧ actions_of_start (start_generation entry_text sample show_numbers metrics) = []
  ∧ saved_files_of (actions_of_start
      (start_generation entry_text sample show_numbers metrics)) = []
  ∧ events_of (actions_of_start
      (start_generation entry_text sample show_numbers metrics)) = [] := by
  have hinv : start_generation entry_text sample show_numbers metrics =
      StartResult.invalid_input := by
    rcases h with h0 | ⟨num, hnum, hle⟩
    · rw [start_generation, h0]
    · rw [start_generation, hnum]
      simp [hle]
  exact ⟨hinv, by rw [hinv]; rfl, by rw [hinv]; rfl, by rw [hinv]; rfl⟩

/-- Witness for `invalid_count_rejected` on the inputs the spec names:
`"0"`, `"-3"` and the non-numeric `"abc"` all yield the error and no
actions. -/
theorem invalid_count_rejected_witness :
    ((py_int "0" = some 0 ∧ (0 : ℤ) ≤ 0)
    ∧ (py_int "-3" = some (-3) ∧ (-3 : ℤ) ≤ 0)
    ∧ py_int "abc" = none)
  ∧ start_generation "0" (fun _ => zero_angles) false (fun _ => (0, 0)) =
      StartResult.invalid_input
  ∧ start_generation "-3" (fun _ => zero_angles) false (fun _ => (0, 0)) =
      StartResult.invalid_input
  ∧ start_generation "abc" (fun _ => zero_angles) false (fun _ => (0, 0)) =
      StartResult.invalid_input
  ∧ actions_of_start (start_generation "0" (fun _ => zero_angles) false
      (fun _ => (0, 0))) = [] := by
  have h0 := invalid_count_rejected "0" (fun _ => zero_angles) false (fun _ => (0, 0))
    (Or.inr ⟨0, by decide, by decide⟩)
  have h3 := invalid_count_rejected "-3" (fun _ => zero_angles) false (fun _ => (0, 0))
    (Or.inr ⟨-3, by decide, by decide⟩)
  have habc := invalid_count_rejected "abc" (fun _ => zero_angles) false (fun _ => (0, 0))
    (Or.inl (by decide))
  exact ⟨⟨⟨by decide, by decide⟩, ⟨by decide, by decide⟩, by decide⟩,
    h0.1, h3.1, habc.1, h0.2.1⟩

end StickFigure
